import Mathlib

/-!
Verification development for the cost-awareness experiment analysis pipeline
(`CostAwarenessExperimentAndAnalysis`): a shallow embedding of the registry,
loader, aggregation engine, derived-metric calculator, comparative reporter and
the two cross-pattern drivers, with theorems settling the specification claims.

Numeric values carried by the tables are modelled as rationals (`ℚ`).  Pandas'
float NaN sentinel (and Python's `None`) are modelled as `Option.none`.  Sample
standard deviations are represented by their squares (the sample variance),
since the square root leaves `ℚ`; every claim under verification concerns only
the definedness (NaN/None) of a standard deviation, never its magnitude, and
`sqrt` preserves definedness exactly.
-/

set_option autoImplicit false

namespace CostAnalysis

/-- A cell value of a pandas DataFrame: either a string (labels, datetimes) or
a numeric value. -/
inductive Val where
  | str (s : String)
  | num (q : ℚ)
  deriving DecidableEq, Repr

/-- Numeric projection of a cell: `some q` for numeric cells, `none` otherwise. -/
def Val.toQ : Val → Option ℚ
  | .str _ => none
  | .num q => some q

/-- A DataFrame: a fixed column list and rows of cells aligned with it
(`rows r` has one entry per column). -/
structure DataFrame where
  cols : List String
  rows : List (List Val)
  deriving DecidableEq, Repr

/-- Cell access `df[c]` for one row: the cell in column `c`, `none` when the column is
absent from the frame. -/
def getVal (df : DataFrame) (c : String) (r : List Val) : Option Val :=
  (df.cols.indexOf? c).bind (fun i => r[i]?)

/-- Mean of a list of rationals (`0` on `[]`; callers only apply it to
nonempty groups, mirroring pandas' `mean` which is only NaN on empty input). -/
def listMean (xs : List ℚ) : ℚ :=
  xs.sum / xs.length

/-- Rounding `round(q, 4)` at the output boundary of the aggregation engine
(`.round(4)` in `aggregate_runs`). -/
def round4 (q : ℚ) : ℚ :=
  (round (q * 10000) : ℤ) / 10000

/-- Sample standard deviation (ddof = 1), as computed by pandas `std`,
represented by its square (the sample variance): `none` models the NaN that
pandas produces on groups of fewer than two values. -/
def sampleStdSq (xs : List ℚ) : Option ℚ :=
  if xs.length ≤ 1 then none
  else some ((xs.map (fun x => (x - listMean xs) ^ 2)).sum / ((xs.length : ℚ) - 1))

/-- The group key of a row under grouping columns `cols`: the tuple of its
cells in those columns (`none` for a column absent from the frame). -/
def keyOf (df : DataFrame) (cols : List String) (r : List Val) : List (Option Val) :=
  cols.map (fun c => getVal df c r)

/-- Grouping `df.groupby(cols)`: the distinct group keys, each with the rows carrying
that key.  Pandas orders groups by sorted key; the claims under verification
are insensitive to group order, so distinct-key order is used here. -/
def groupsOf (df : DataFrame) (cols : List String) : List (List (Option Val) × List (List Val)) :=
  ((df.rows.map (keyOf df cols)).dedup).map
    (fun k => (k, df.rows.filter (fun r => keyOf df cols r = k)))

/-- Numeric values of metric column `m` over the rows of one group. -/
def metricVals (df : DataFrame) (m : String) (rs : List (List Val)) : List ℚ :=
  rs.filterMap (fun r => (getVal df m r).bind Val.toQ)

/-- The `(metric, (mean, std))` cells of one aggregate row, rounded to 4
decimals as in `aggregate_runs` (`.agg({col: ['mean','std']}).round(4)`). -/
def mkStats (df : DataFrame) (metric_cols : List String) (rs : List (List Val)) :
    List (String × ℚ × Option ℚ) :=
  metric_cols.map (fun m =>
    (m, round4 (listMean (metricVals df m rs)),
        (sampleStdSq (metricVals df m rs)).map round4))

/-- One row of the aggregate output: the group key plus `(mean, std)` per
requested metric. -/
structure AggRow where
  key : List (Option Val)
  stats : List (String × ℚ × Option ℚ)
  deriving DecidableEq, Repr

/-- The engine `aggregate_runs(df, group_cols, metric_cols)` from `Utils/util.py`:
appends `'topology'` and then `'scheduler'` to `group_cols` when present in
`df` and not already requested, then groups and computes mean/std per metric.
Python mutates the caller's `group_cols` list in place via `list.append`; the
final state of that list is returned as the second component. -/
def aggregate_runs (df : DataFrame) (group_cols metric_cols : List String) :
    List AggRow × List String :=
  let gc1 := if "topology" ∈ group_cols ∨ "topology" ∉ df.cols
             then group_cols else group_cols ++ ["topology"]
  let gc2 := if "scheduler" ∈ gc1 ∨ "scheduler" ∉ df.cols
             then gc1 else gc1 ++ ["scheduler"]
  (((groupsOf df gc2).map (fun g => AggRow.mk g.1 (mkStats df metric_cols g.2))), gc2)

/-! ## Raw record loader (`Utils/util.py`, `read_parquet_files`) -/

/-- One entry of `trackr.json` as consumed by `read_parquet_files`, which
accesses `['topology']['pathToFile']` and `['allocationPolicy']['policyType']`
directly (a missing key there is a crash the claims do not touch, so the
fields are non-optional here). -/
structure TrackrScenario where
  topologyPath : String
  policyType : String
  deriving DecidableEq, Repr

/-- Does `pat` occur at the head of `cs`? -/
def matchesAt : List Char → List Char → Bool
  | [], _ => true
  | _ :: _, [] => false
  | p :: ps, c :: cs => p = c && matchesAt ps cs

/-- The topology alternative matching at this position of the path, if any
(the three alternatives of the regex `topology_(small|medium|large)` are
mutually exclusive at a fixed position). -/
def topoAt (cs : List Char) : Option String :=
  if matchesAt "topology_small".toList cs then some "small"
  else if matchesAt "topology_medium".toList cs then some "medium"
  else if matchesAt "topology_large".toList cs then some "large"
  else none

/-- Leftmost match of `topology_(small|medium|large)`, as `re.search` finds. -/
def searchTopo : List Char → Option String
  | [] => none
  | c :: cs =>
    match topoAt (c :: cs) with
    | some s => some s
    | none => searchTopo cs

/-- Topology size class of a `pathToFile` string: the leftmost
`topology_(small|medium|large)` match, else `'unknown'`. -/
def topologyOfPath (p : String) : String :=
  (searchTopo p.toList).getD "unknown"

/-- Failures of `read_parquet_files`: the `IndexError` from
`trackr_data[int(scenario_num)]` on an out-of-range scenario directory, and
the `ValueError("No ... files found")` on an empty result. -/
inductive LoadErr where
  | outOfRange
  | emptyResult
  deriving DecidableEq, Repr

/-- A `seed=<n>` (or other) subdirectory of a scenario directory: its name and
the content of the requested `<file_type>.parquet` (`none` = file missing). -/
structure SeedDir (α : Type) where
  name : String
  content : Option (List α)
  deriving DecidableEq, Repr

/-- A subdirectory of the pattern's `raw-output` root. -/
structure ScenarioDir (α : Type) where
  name : String
  seeds : List (SeedDir α)
  deriving DecidableEq, Repr

/-- A raw row tagged with the four columns `read_parquet_files` adds. -/
structure TaggedRow (α : Type) where
  data : α
  topology : String
  scheduler : String
  scenario : ℕ
  seed : ℤ
  deriving DecidableEq, Repr

/-- Python `str.isdigit`: nonempty and all characters digits. -/
def isDigitsName (s : String) : Bool :=
  !s.toList.isEmpty && s.toList.all Char.isDigit

/-- Conversion `int(...)` of a digit string: its decimal value. -/
def natOfName (s : String) : ℕ :=
  s.toList.foldl (fun n c => 10 * n + (c.toNat - 48)) 0

/-- Conversion `int(...)` of a possibly sign-prefixed integer literal (a malformed
literal is a Python crash the claims never exercise; 0 stands in). -/
def intOfChars : List Char → ℤ
  | '-' :: rest => -(rest.foldl (fun n c => 10 * n + (c.toNat - 48)) 0 : ℕ)
  | cs => (cs.foldl (fun n c => 10 * n + (c.toNat - 48)) 0 : ℕ)

/-- The seed number `int(seed_dir.split('=')[1])`. -/
def seedOf (name : String) : ℤ :=
  intOfChars ((name.toList.splitOn '=')[1]?.getD [])

/-- Load one seed directory: `none` unless the name starts with `seed=` and
the requested parquet file exists; otherwise the file's rows tagged with
topology, scheduler, scenario and seed. -/
def seedTables {α : Type} (topo sched : String) (scen : ℕ) (sd : SeedDir α) :
    Option (List (TaggedRow α)) :=
  if matchesAt "seed=".toList sd.name.toList then
    sd.content.map (fun rows => rows.map (fun r => TaggedRow.mk r topo sched scen (seedOf sd.name)))
  else none

/-- Process one entry of the `raw-output` listing: non-digit names are
skipped; a digit name is looked up in the registry (`IndexError` → the
out-of-range failure) and each `seed=` subdirectory with a present parquet
file contributes one tagged table. -/
def processScenario {α : Type} (trackr : List TrackrScenario) (d : ScenarioDir α) :
    Except LoadErr (List (List (TaggedRow α))) :=
  if isDigitsName d.name then
    let n := natOfName d.name
    match trackr[n]? with
    | none => .error .outOfRange
    | some info =>
      .ok (d.seeds.filterMap (seedTables (topologyOfPath info.topologyPath) info.policyType n))
  else .ok []

/-- The tables a scenario directory contributes when it processes
successfully (`[]` on failure; used only to state what a successful prefix
accumulated). -/
def tablesOf {α : Type} (trackr : List TrackrScenario) (d : ScenarioDir α) :
    List (List (TaggedRow α)) :=
  match processScenario trackr d with
  | .ok ts => ts
  | .error _ => []

/-- The loader's main loop: `dfs` accumulates one table per parquet file
found, in discovery order; the first failing scenario aborts the loop with
its error. -/
def loadLoop {α : Type} (trackr : List TrackrScenario) :
    List (ScenarioDir α) → List (List (TaggedRow α)) →
    Except LoadErr (List (List (TaggedRow α)))
  | [], dfs => .ok dfs
  | d :: ds, dfs =>
    match processScenario trackr d with
    | .error e => .error e
    | .ok ts => loadLoop trackr ds (dfs ++ ts)

/-- The loader `read_parquet_files`: run the loop over the `raw-output` listing; zero
tables found raises the empty-result error, otherwise the tables are
concatenated (`pd.concat(dfs, ignore_index=True)`). -/
def read_parquet_files {α : Type} (trackr : List TrackrScenario)
    (dirs : List (ScenarioDir α)) : Except LoadErr (List (TaggedRow α)) :=
  match loadLoop trackr dirs [] with
  | .error e => .error e
  | .ok dfs => if dfs.isEmpty then .error .emptyResult else .ok dfs.flatten

/-! ## Scheduler label extraction (`more_analysis.py`, `get_scheduler_info`) -/

/-- The `allocationPolicy` object of a registry entry as `get_scheduler_info`
reads it (`.get('policyType', 'Unknown')`). -/
structure MoreAllocationPolicy where
  policyType : Option String
  deriving DecidableEq, Repr

/-- A registry entry as `get_scheduler_info` reads it
(`.get('allocationPolicy', {})`). -/
structure MoreConfig where
  allocationPolicy : Option MoreAllocationPolicy
  deriving DecidableEq, Repr

/-- The lookup `config.get('allocationPolicy', {}).get('policyType', 'Unknown')`. -/
def schedulerFromConfig (c : MoreConfig) : String :=
  match c.allocationPolicy with
  | none => "Unknown"
  | some p => p.policyType.getD "Unknown"

/-- Does `needle` occur as a contiguous substring of `hay`? -/
def containsToken (hay needle : List Char) : Bool :=
  match hay with
  | [] => needle.isEmpty
  | _ :: t => matchesAt needle hay || containsToken t needle

/-- Substring test on strings. -/
def strContainsSub (hay needle : String) : Bool :=
  containsToken hay.toList needle.toList

/-- The filename-parsing fallback of `get_scheduler_info`: case-insensitive
substring search for the three scheduler names, else `"Unknown"`. -/
def schedulerFromPath (path : String) : String :=
  if strContainsSub path.toLower "simplecost" then "SimpleCost"
  else if strContainsSub path.toLower "costefficient" then "CostEfficient"
  else if strContainsSub path.toLower "predictivecost" then "PredictiveCost"
  else "Unknown"

/-- The extractor `get_scheduler_info`: when `trackr.json` exists (`some configs`) and the
scenario number is in range, the label comes from the registry entry;
otherwise the path fallback runs. -/
def get_scheduler_info (trackr : Option (List MoreConfig)) (scenario_num : ℕ)
    (scenario_path : String) : String :=
  match trackr with
  | some configs =>
    match configs[scenario_num]? with
    | some config => schedulerFromConfig config
    | none => schedulerFromPath scenario_path
  | none => schedulerFromPath scenario_path

/-! ## Task completion statistics
(`analyze_experiments.py`, `ExperimentAnalyzer.analyze_task_completion`) -/

/-- One task-lifecycle event row of the task table, restricted to the columns
`analyze_task_completion` touches. -/
structure TaskRow where
  task_id : ℕ
  task_state : String
  creation_time : ℚ
  finish_time : ℚ
  scenario_label : String
  deriving DecidableEq, Repr

/-- The filter `self.task_df[self.task_df['scenario_label'] == scenario]`. -/
def taskRowsFor (task_df : List TaskRow) (label : String) : List TaskRow :=
  task_df.filter (fun r => r.scenario_label = label)

/-- Final states `scenario_tasks.groupby('task_id').last()`: one row per distinct
`task_id`, namely the last row carrying it (pandas orders groups by sorted
`task_id`; every statistic taken of this table is order-insensitive). -/
def task_final_states (rows : List TaskRow) : List TaskRow :=
  ((rows.map (fun r => r.task_id)).dedup).filterMap
    (fun id => (rows.filter (fun r => r.task_id = id)).getLast?)

/-- The count `state_counts.get(s, 0)`: how many tasks have final state `s`. -/
def stateCount (rows : List TaskRow) (s : String) : ℕ :=
  ((task_final_states rows).filter (fun r => r.task_state = s)).length

/-- Durations `(completed_tasks['finish_time'] - completed_tasks['creation_time']) / 1000.0`
over the final-state rows whose state is `COMPLETED`. -/
def completionTimes (rows : List TaskRow) : List ℚ :=
  ((task_final_states rows).filter (fun r => r.task_state = "COMPLETED")).map
    (fun r => (r.finish_time - r.creation_time) / 1000)

/-- Insertion into a sorted list of rationals. -/
def insertSorted (x : ℚ) : List ℚ → List ℚ
  | [] => [x]
  | y :: ys => if x ≤ y then x :: y :: ys else y :: insertSorted x ys

/-- Sort a list of rationals ascending. -/
def sortQ (xs : List ℚ) : List ℚ :=
  xs.foldr insertSorted []

/-- Median `Series.median()` on nonempty input: the middle order statistic, or the
mean of the two middle order statistics for even length. -/
def listMedian (xs : List ℚ) : ℚ :=
  let s := sortQ xs
  if xs.length % 2 = 1 then s.getD (xs.length / 2) 0
  else (s.getD (xs.length / 2 - 1) 0 + s.getD (xs.length / 2) 0) / 2

/-- The per-scenario `metrics` dict of `analyze_task_completion`.  `Option`
models Python `None`; for `std_completion_time` it also covers the NaN that
pandas `std` yields on a single completion. -/
structure CompletionStats where
  total_tasks : ℕ
  completion_rate : ℚ
  termination_rate : ℚ
  error_rate : ℚ
  avg_completion_time : Option ℚ
  median_completion_time : Option ℚ
  std_completion_time : Option ℚ
  min_completion_time : Option ℚ
  max_completion_time : Option ℚ
  deriving DecidableEq, Repr

/-- The statistics computed for one scenario label's task rows. -/
def analyzeScenario (rows : List TaskRow) : CompletionStats :=
  let total := (task_final_states rows).length
  let times := completionTimes rows
  { total_tasks := total
    completion_rate := if total > 0 then (stateCount rows "COMPLETED" : ℚ) / total else 0
    termination_rate := if total > 0 then (stateCount rows "TERMINATED" : ℚ) / total else 0
    error_rate := if total > 0 then (stateCount rows "ERROR" : ℚ) / total else 0
    avg_completion_time := if times.isEmpty then none else some (listMean times)
    median_completion_time := if times.isEmpty then none else some (listMedian times)
    std_completion_time := if times.isEmpty then none else sampleStdSq times
    min_completion_time := if times.isEmpty then none else (sortQ times).head?
    max_completion_time := if times.isEmpty then none else (sortQ times).getLast? }

/-- The calculator `analyze_task_completion`: statistics per distinct scenario label of the
task table, keyed by label (the index of the returned `stats_df`). -/
def analyze_task_completion (task_df : List TaskRow) : List (String × CompletionStats) :=
  ((task_df.map (fun r => r.scenario_label)).dedup).map
    (fun l => (l, analyzeScenario (taskRowsFor task_df l)))

/-! ## Comparative reporter
(`analyze_experiments.py`, `ExperimentAnalyzer.comparative_analysis`) -/

/-- One row of the flattened cost-aggregate table (`cost_metrics_df`), in the
columns `comparative_analysis` reads.  `cost_std` may be the NaN sentinel
(single seed), `cost_efficiency` the undefined/infinite sentinel (zero mean
cost); both are `Option` and merely copied. -/
structure CostRow where
  scenario_label : String
  topology : String
  scheduler : String
  cost_mean : ℚ
  cost_std : Option ℚ
  cpu_utilization_mean : ℚ
  cost_efficiency : Option ℚ
  deriving DecidableEq, Repr

/-- One row of the comparison table built by `comparative_analysis`. -/
structure ComparisonRow where
  scenario_label : String
  topology : String
  scheduler : String
  avg_cost : ℚ
  cost_std : Option ℚ
  cpu_utilization : ℚ
  cost_efficiency : Option ℚ
  completion_rate : Option ℚ
  deriving DecidableEq, Repr

/-- The test `scen_label in completion_stats_df.index` and `.loc[scen_label, ...]`:
lookup of a scenario label in the completion-statistics table. -/
def lookupStats (compl : List (String × CompletionStats)) (label : String) :
    Option CompletionStats :=
  (compl.find? (fun p => p.1 = label)).map (fun p => p.2)

/-- The reporter `comparative_analysis(cost_metrics_df, completion_stats_df)`: one output
row per cost row; `completion_rate` is looked up by scenario label and is the
`None` sentinel when the label is absent from the completion table. -/
def comparative_analysis (cost : List CostRow)
    (compl : List (String × CompletionStats)) : List ComparisonRow :=
  cost.map (fun row =>
    { scenario_label := row.scenario_label
      topology := row.topology
      scheduler := row.scheduler
      avg_cost := row.cost_mean
      cost_std := row.cost_std
      cpu_utilization := row.cpu_utilization_mean
      cost_efficiency := row.cost_efficiency
      completion_rate := (lookupStats compl row.scenario_label).map
        (fun st => st.completion_rate) })

/-! ## Cross-pattern drivers (`analyze_experiments.py` `main` and
`more_analysis.py` `main`)

The per-pattern pipeline (load, analyze, plot, save) is abstracted as a
function `run` from the pattern name to either its results or the exception
it raises; each driver is then its control flow over the fixed pattern list.
The second component of each driver's result is the process exit status:
`0` when `main` returns normally, `1` when an exception propagates out. -/

/-- The loop of `more_analysis.main`: the per-pattern `try/except` logs a
failure and `continue`s, so a failing pattern contributes nothing and the
remaining patterns are still processed. -/
def moreLoop {E β : Type} (run : String → Except E β) :
    List String → List (String × β) → List (String × β)
  | [], acc => acc
  | p :: ps, acc =>
    match run p with
    | .ok b => moreLoop run ps (acc ++ [(p, b)])
    | .error _ => moreLoop run ps acc

/-- The driver `more_analysis.main`: all exceptions are caught and logged inside the
loop (and the cross-pattern stage has its own `try/except`), so `main`
returns normally and the process exits 0. -/
def moreAnalysisMain {E β : Type} (run : String → Except E β)
    (patterns : List String) : List (String × β) × ℕ :=
  (moreLoop run patterns [], 0)

/-- The loop of `analyze_experiments.main`: the whole `for pattern in ...`
loop sits inside one `try`, so the first failing pattern aborts the loop with
its exception. -/
def analyzeLoop {E β : Type} (run : String → Except E β) :
    List String → List (String × β) → Except E (List (String × β))
  | [], acc => .ok acc
  | p :: ps, acc =>
    match run p with
    | .ok b => analyzeLoop run ps (acc ++ [(p, b)])
    | .error e => .error e

/-- The driver `analyze_experiments.main`: the `except` clause logs the exception and
re-raises it (`raise`), so a per-pattern failure propagates out of `main` and
the process exits nonzero. -/
def analyzeExperimentsMain {E β : Type} (run : String → Except E β)
    (patterns : List String) : Except E (List (String × β)) × ℕ :=
  match analyzeLoop run patterns [] with
  | .ok r => (.ok r, 0)
  | .error e => (.error e, 1)

/-! ## Spec-side formulation of the task-completion rates

These two definitions follow the spec's words — "for each task's last observed
state (identity = task_id) compute ... terminal-state counts divided by
distinct task_id count" — to be compared with the source-translated
`analyzeScenario` above. -/

/-- The last observed state of task `id`: the `task_state` of the last row of
`rows` carrying `task_id = id`, if any. -/
def lastStateOf (rows : List TaskRow) (id : ℕ) : Option String :=
  ((rows.filter (fun r => r.task_id = id)).getLast?).map (fun r => r.task_state)

/-- The number of distinct `task_id`s whose last observed state is `s`. -/
def specFinalStateCount (rows : List TaskRow) (s : String) : ℕ :=
  (((rows.map (fun r => r.task_id)).dedup).filter
    (fun id => lastStateOf rows id = some s)).length

/-! ## Concrete sample inputs for the witnesses -/

/-- A three-row host table over two (topology, scheduler) groups, the second
a single-seed group. -/
def sampleDF : DataFrame :=
  { cols := ["cost", "topology", "scheduler"]
    rows := [[Val.num 100, Val.str "small", Val.str "CostEfficient"],
             [Val.num 200, Val.str "small", Val.str "CostEfficient"],
             [Val.num 300, Val.str "large", Val.str "PredictiveCost"]] }

/-- The group key of `sampleDF`'s singleton group. -/
def sampleKey : List (Option Val) :=
  [some (Val.str "large"), some (Val.str "PredictiveCost")]

/-- The rows of `sampleDF`'s singleton group. -/
def sampleGroup : List (List Val) :=
  [[Val.num 300, Val.str "large", Val.str "PredictiveCost"]]

/-- A one-scenario registry. -/
def sampleTrackr : List TrackrScenario :=
  [{ topologyPath := "topologies/topology_small/topology.json"
     policyType := "CostEfficient" }]

/-- A valid scenario directory with one seed and one parquet file. -/
def sampleGoodDir : ScenarioDir ℕ :=
  { name := "0", seeds := [{ name := "seed=1", content := some [7] }] }

/-- A scenario directory whose integer name is out of range for
`sampleTrackr`. -/
def sampleBadDir : ScenarioDir ℕ :=
  { name := "1", seeds := [] }

/-- A valid scenario directory with no `seed=` subdirectory. -/
def sampleNoSeedDir : ScenarioDir ℕ :=
  { name := "0", seeds := [{ name := "output", content := some [7] }] }

/-- Task events for one scenario label: task 1 ends COMPLETED (after a
RUNNING observation), task 2 ends ERROR. -/
def sampleTasks : List TaskRow :=
  [{ task_id := 1, task_state := "RUNNING", creation_time := 0,
     finish_time := 0, scenario_label := "small_cost_diurnal_CostEfficient" },
   { task_id := 1, task_state := "COMPLETED", creation_time := 0,
     finish_time := 2000, scenario_label := "small_cost_diurnal_CostEfficient" },
   { task_id := 2, task_state := "ERROR", creation_time := 0,
     finish_time := 500, scenario_label := "small_cost_diurnal_CostEfficient" }]

/-- Task events for a scenario label with no completed task. -/
def sampleNoCompleted : List TaskRow :=
  [{ task_id := 1, task_state := "TERMINATED", creation_time := 0,
     finish_time := 100, scenario_label := "large_cost_spike_PredictiveCost" }]

/-- One row of a flattened cost-aggregate table. -/
def sampleCostRow : CostRow :=
  { scenario_label := "small_cost_diurnal_CostEfficient", topology := "small"
    scheduler := "CostEfficient", cost_mean := 150, cost_std := some 50
    cpu_utilization_mean := 60, cost_efficiency := some (2 / 5) }

/-- Registry entries for the scheduler-label claim: one with a policy type,
one whose `allocationPolicy` lacks `policyType`, one without
`allocationPolicy`. -/
def sampleConfigs : List MoreConfig :=
  [{ allocationPolicy := some { policyType := some "CostEfficient" } },
   { allocationPolicy := some { policyType := none } },
   { allocationPolicy := none }]

/-! ## Theorems -/

/-- C2: for every table containing `topology` and `scheduler` columns, group
keys excluding those two names and metric list, `aggregate_runs` returns the
same aggregate table as the call with `topology` and `scheduler` explicitly
appended to the keys: the engine augments the group keys automatically. -/
theorem aggregate_runs_auto_group_keys (df : DataFrame) (gc mc : List String)
    (h1 : "topology" ∉ gc) (h2 : "scheduler" ∉ gc)
    (h3 : "topology" ∈ df.cols) (h4 : "scheduler" ∈ df.cols) :
    (aggregate_runs df gc mc).1
      = (aggregate_runs df (gc ++ ["topology", "scheduler"]) mc).1 := by
  simp [aggregate_runs, h1, h2, h3, h4, List.append_assoc]

/-- Witness for C2 at a concrete table and empty key list. -/
theorem aggregate_runs_auto_group_keys_witness :
    ("topology" ∉ ([] : List String)) ∧ ("scheduler" ∉ ([] : List String)) ∧
    ("topology" ∈ sampleDF.cols) ∧ ("scheduler" ∈ sampleDF.cols) ∧
    (aggregate_runs sampleDF [] ["cost"]).1
      = (aggregate_runs sampleDF ([] ++ ["topology", "scheduler"]) ["cost"]).1 :=
  ⟨by decide, by decide, by decide, by decide,
   aggregate_runs_auto_group_keys sampleDF [] ["cost"]
     (by decide) (by decide) (by decide) (by decide)⟩

/-- C10: `aggregate_runs` mutates its caller's `group_cols` list: when the
table has `topology` and `scheduler` columns not already listed, both names
are appended in place, so after the call the caller's list (the second
component, the final state of the Python list object) is longer than the list
passed in. -/
theorem aggregate_runs_mutates_group_cols (df : DataFrame) (gc mc : List String)
    (h1 : "topology" ∉ gc) (h2 : "scheduler" ∉ gc)
    (h3 : "topology" ∈ df.cols) (h4 : "scheduler" ∈ df.cols) :
    (aggregate_runs df gc mc).2 = gc ++ ["topology", "scheduler"] ∧
    gc.length < (aggregate_runs df gc mc).2.length := by
  have h : (aggregate_runs df gc mc).2 = gc ++ ["topology", "scheduler"] := by
    simp [aggregate_runs, h1, h2, h3, h4, List.append_assoc]
  exact ⟨h, by rw [h]; simp⟩

/-- Witness for C10 at a concrete table and a one-element key list. -/
theorem aggregate_runs_mutates_group_cols_witness :
    ("topology" ∉ (["scenario"] : List String)) ∧
    ("scheduler" ∉ (["scenario"] : List String)) ∧
    ("topology" ∈ sampleDF.cols) ∧ ("scheduler" ∈ sampleDF.cols) ∧
    (aggregate_runs sampleDF ["scenario"] ["cost"]).2
      = ["scenario", "topology", "scheduler"] ∧
    (["scenario"] : List String).length
      < (aggregate_runs sampleDF ["scenario"] ["cost"]).2.length :=
  ⟨by decide, by decide, by decide, by decide,
   (aggregate_runs_mutates_group_cols sampleDF ["scenario"] ["cost"]
     (by decide) (by decide) (by decide) (by decide)).1,
   (aggregate_runs_mutates_group_cols sampleDF ["scenario"] ["cost"]
     (by decide) (by decide) (by decide) (by decide)).2⟩

/-- C4: every group produced by `aggregate_runs` that contains exactly one
row has the explicit undefined sentinel (NaN, modelled `none`) as its std
value for every metric, never 0: its aggregate row is in the output and every
one of its std cells is `none`. -/
theorem aggregate_runs_singleton_std (df : DataFrame) (gc mc : List String)
    (k : List (Option Val)) (rs : List (List Val))
    (hg : (k, rs) ∈ groupsOf df (aggregate_runs df gc mc).2)
    (h1 : rs.length = 1) :
    AggRow.mk k (mkStats df mc rs) ∈ (aggregate_runs df gc mc).1 ∧
    ∀ s ∈ mkStats df mc rs, s.2.2 = none := by
  constructor
  · have hmap : (aggregate_runs df gc mc).1
        = (groupsOf df (aggregate_runs df gc mc).2).map
            (fun g => AggRow.mk g.1 (mkStats df mc g.2)) := rfl
    rw [hmap]
    exact List.mem_map_of_mem _ hg
  · intro s hs
    simp only [mkStats, List.mem_map] at hs
    obtain ⟨m, _, rfl⟩ := hs
    have hlen : (metricVals df m rs).length ≤ 1 := by
      have := List.length_filterMap_le (fun r => (getVal df m r).bind Val.toQ) rs
      simpa [metricVals, h1] using this
    simp [sampleStdSq, hlen]

/-- Witness for C4: the singleton group of `sampleDF` gets a `none` std. -/
theorem aggregate_runs_singleton_std_witness :
    ((sampleKey, sampleGroup) ∈ groupsOf sampleDF (aggregate_runs sampleDF [] ["cost"]).2) ∧
    sampleGroup.length = 1 ∧
    AggRow.mk sampleKey (mkStats sampleDF ["cost"] sampleGroup)
      ∈ (aggregate_runs sampleDF [] ["cost"]).1 ∧
    (mkStats sampleDF ["cost"] sampleGroup).map (fun s => s.2.2) = [none] :=
  ⟨by decide, by decide,
   (aggregate_runs_singleton_std sampleDF [] ["cost"] sampleKey sampleGroup
     (by decide) (by decide)).1,
   by decide⟩

/-- C1: the comparative reporter returns a comparison table with exactly one
row per row of the cost-aggregate table, and a cost row whose scenario label
has no matching entry in the completion-statistics table gets the explicit
`None` sentinel as its `completion_rate` (in the output row at the same
position) rather than the call failing. -/
theorem comparative_analysis_one_row_per_cost_row (cost : List CostRow)
    (compl : List (String × CompletionStats)) (row : CostRow) (i : ℕ)
    (hi : cost[i]? = some row)
    (hmiss : lookupStats compl row.scenario_label = none) :
    (comparative_analysis cost compl).length = cost.length ∧
    ((comparative_analysis cost compl)[i]?).map
      (fun out => (out.scenario_label, out.completion_rate))
      = some (row.scenario_label, none) := by
  constructor
  · simp [comparative_analysis]
  · rw [comparative_analysis, List.getElem?_map, hi]
    simp [hmiss]

/-- Witness for C1: one cost row against an empty completion table. -/
theorem comparative_analysis_one_row_per_cost_row_witness :
    ([sampleCostRow][0]? = some sampleCostRow) ∧
    lookupStats [] sampleCostRow.scenario_label = none ∧
    (comparative_analysis [sampleCostRow] []).length = 1 ∧
    ((comparative_analysis [sampleCostRow] [])[0]?).map
      (fun out => (out.scenario_label, out.completion_rate))
      = some (sampleCostRow.scenario_label, none) :=
  ⟨rfl, rfl,
   (comparative_analysis_one_row_per_cost_row [sampleCostRow] [] sampleCostRow 0
     rfl rfl).1,
   (comparative_analysis_one_row_per_cost_row [sampleCostRow] [] sampleCostRow 0
     rfl rfl).2⟩

/-- C7: extracting the scheduler label from a scenario's registry entry
returns the raw policy type string when the entry carries one, and the string
`"Unknown"` when the policy type (or the whole allocation-policy object) is
missing, rather than failing. -/
theorem get_scheduler_info_label (configs : List MoreConfig) (n : ℕ)
    (path : String) (c : MoreConfig) (hc : configs[n]? = some c) :
    (∀ p s, c.allocationPolicy = some p → p.policyType = some s →
      get_scheduler_info (some configs) n path = s) ∧
    (∀ p, c.allocationPolicy = some p → p.policyType = none →
      get_scheduler_info (some configs) n path = "Unknown") ∧
    (c.allocationPolicy = none →
      get_scheduler_info (some configs) n path = "Unknown") := by
  refine ⟨?_, ?_, ?_⟩ <;> intros <;>
    simp_all [get_scheduler_info, hc, schedulerFromConfig]

/-- Witness for C7: a carried policy type is returned raw; both missing
shapes give `"Unknown"`. -/
theorem get_scheduler_info_label_witness :
    sampleConfigs[0]? = some { allocationPolicy := some { policyType := some "CostEfficient" } } ∧
    get_scheduler_info (some sampleConfigs) 0 "p" = "CostEfficient" ∧
    sampleConfigs[1]? = some { allocationPolicy := some { policyType := none } } ∧
    get_scheduler_info (some sampleConfigs) 1 "p" = "Unknown" ∧
    sampleConfigs[2]? = some { allocationPolicy := none } ∧
    get_scheduler_info (some sampleConfigs) 2 "p" = "Unknown" :=
  ⟨by decide,
   (get_scheduler_info_label sampleConfigs 0 "p" _ (by decide)).1
     { policyType := some "CostEfficient" } "CostEfficient" rfl rfl,
   by decide,
   (get_scheduler_info_label sampleConfigs 1 "p" _ (by decide)).2.1
     { policyType := none } rfl rfl,
   by decide,
   (get_scheduler_info_label sampleConfigs 2 "p" _ (by decide)).2.2 rfl⟩

/-- The `more_analysis` loop collects exactly the successful patterns, in
order, regardless of interleaved failures. -/
theorem moreLoop_eq {E β : Type} (run : String → Except E β) (ps : List String)
    (acc : List (String × β)) :
    moreLoop run ps acc
      = acc ++ ps.filterMap (fun p => (run p).toOption.map (fun b => (p, b))) := by
  induction ps generalizing acc with
  | nil => simp [moreLoop]
  | cons p ps ih =>
    cases hr : run p with
    | ok b => simp [moreLoop, hr, ih, Except.toOption]
    | error e => simp [moreLoop, hr, ih, Except.toOption]

/-- If the `analyze_experiments` loop returns normally, every pattern's run
succeeded. -/
theorem analyzeLoop_ok_all {E β : Type} (run : String → Except E β) :
    ∀ (ps : List String) (acc r : List (String × β)),
      analyzeLoop run ps acc = Except.ok r → ∀ p ∈ ps, (run p).toOption ≠ none := by
  intro ps
  induction ps with
  | nil => intro acc r _ p hp; simp at hp
  | cons q t ih =>
    intro acc r h p hp
    cases hr : run q with
    | error e =>
      simp only [analyzeLoop, hr] at h
      cases h
    | ok b =>
      simp only [analyzeLoop, hr] at h
      rcases List.mem_cons.mp hp with rfl | hp2
      · simp [hr, Except.toOption]
      · exact ih _ _ h p hp2

/-- C9 (amended): in the `more_analysis` cross-pattern driver a stage failure
for one pattern only skips that pattern's results — the driver continues and
collects exactly the successful patterns in order — and the process exits 0
regardless; the `analyze_experiments` driver instead re-raises a per-pattern
failure, so any failing pattern makes that process exit nonzero. -/
theorem cross_pattern_driver {E β : Type} (run : String → Except E β)
    (patterns : List String) :
    moreAnalysisMain run patterns
      = (patterns.filterMap (fun p => (run p).toOption.map (fun b => (p, b))), 0) ∧
    ∀ p ∈ patterns, (run p).toOption = none →
      (analyzeExperimentsMain run patterns).2 = 1 := by
  constructor
  · simp [moreAnalysisMain, moreLoop_eq]
  · intro p hp hfail
    unfold analyzeExperimentsMain
    cases hl : analyzeLoop run patterns [] with
    | ok r => exact absurd hfail (analyzeLoop_ok_all run patterns [] r hl p hp)
    | error e => rfl

/-- Counterexample for C9 as stated: with the first pattern failing and the
second succeeding, the `analyze_experiments` cross-pattern driver stops — the
succeeding pattern's results are dropped and the process exit status is 1,
not 0. -/
theorem analyze_main_aborts_on_pattern_failure :
    analyzeExperimentsMain
        (fun p => if p = "stable" then (Except.error 0 : Except ℕ ℕ) else .ok 5)
        ["stable", "volatile"]
      = (Except.error 0, 1) ∧
    (analyzeExperimentsMain
        (fun p => if p = "stable" then (Except.error 0 : Except ℕ ℕ) else .ok 5)
        ["stable", "volatile"]).2 ≠ 0 := by
  constructor
  · rfl
  · decide

/-- Witness for the amended C9 at a concrete failing pattern. -/
theorem cross_pattern_driver_witness :
    moreAnalysisMain
        (fun p => if p = "stable" then (Except.error 0 : Except ℕ ℕ) else .ok 5)
        ["stable", "volatile"]
      = ([("volatile", 5)], 0) ∧
    ("stable" ∈ ["stable", "volatile"]) ∧
    ((fun p => if p = "stable" then (Except.error 0 : Except ℕ ℕ) else .ok 5)
        "stable").toOption = none ∧
    (analyzeExperimentsMain
        (fun p => if p = "stable" then (Except.error 0 : Except ℕ ℕ) else .ok 5)
        ["stable", "volatile"]).2 = 1 :=
  ⟨by rw [(cross_pattern_driver _ _).1]; rfl,
   by simp, by decide,
   (cross_pattern_driver
       (fun p => if p = "stable" then (Except.error 0 : Except ℕ ℕ) else .ok 5)
       ["stable", "volatile"]).2 "stable" (by simp) (by decide)⟩

/-- C8: for a scenario label whose task set has zero tasks in final state
`COMPLETED`, all five completion-time statistics are the explicit undefined
value `None` — never 0 and never an exception (the statistics function is
total). -/
theorem completion_stats_no_completed (rows : List TaskRow)
    (h : (task_final_states rows).filter (fun r => r.task_state = "COMPLETED") = []) :
    (analyzeScenario rows).avg_completion_time = none ∧
    (analyzeScenario rows).median_completion_time = none ∧
    (analyzeScenario rows).std_completion_time = none ∧
    (analyzeScenario rows).min_completion_time = none ∧
    (analyzeScenario rows).max_completion_time = none := by
  have ht : completionTimes rows = [] := by simp [completionTimes, h]
  simp [analyzeScenario, ht]

/-- Witness for C8: a scenario whose only task ends `TERMINATED`. -/
theorem completion_stats_no_completed_witness :
    (task_final_states sampleNoCompleted).filter
      (fun r => r.task_state = "COMPLETED") = [] ∧
    (analyzeScenario sampleNoCompleted).avg_completion_time = none ∧
    (analyzeScenario sampleNoCompleted).median_completion_time = none ∧
    (analyzeScenario sampleNoCompleted).std_completion_time = none ∧
    (analyzeScenario sampleNoCompleted).min_completion_time = none ∧
    (analyzeScenario sampleNoCompleted).max_completion_time = none :=
  ⟨by decide, completion_stats_no_completed sampleNoCompleted (by decide)⟩

/-- A run of the loader loop over scenario directories that all process
successfully accumulates exactly their tables, in discovery order. -/
theorem loadLoop_ok {α : Type} (trackr : List TrackrScenario)
    (ds : List (ScenarioDir α)) (acc : List (List (TaggedRow α)))
    (h : ∀ d ∈ ds, (processScenario trackr d).isOk = true) :
    loadLoop trackr ds acc = .ok (acc ++ (ds.map (tablesOf trackr)).flatten) := by
  induction ds generalizing acc with
  | nil => simp [loadLoop]
  | cons d ds ih =>
    have hd := h d (by simp)
    cases hp : processScenario trackr d with
    | error e => rw [hp] at hd; simp [Except.isOk, Except.toBool] at hd
    | ok ts =>
      simp only [loadLoop, hp]
      rw [ih _ (fun x hx => h x (by simp [hx]))]
      simp [tablesOf, hp, List.append_assoc]

/-- Splitting the loader loop at a successful prefix. -/
theorem loadLoop_append {α : Type} (trackr : List TrackrScenario)
    (l1 l2 : List (ScenarioDir α)) (acc : List (List (TaggedRow α)))
    (h : ∀ d ∈ l1, (processScenario trackr d).isOk = true) :
    loadLoop trackr (l1 ++ l2) acc
      = loadLoop trackr l2 (acc ++ (l1.map (tablesOf trackr)).flatten) := by
  induction l1 generalizing acc with
  | nil => simp [loadLoop]
  | cons d ds ih =>
    have hd := h d (by simp)
    cases hp : processScenario trackr d with
    | error e => rw [hp] at hd; simp [Except.isOk, Except.toBool] at hd
    | ok ts =>
      simp only [List.cons_append, loadLoop, hp, List.append_eq]
      rw [ih _ (fun x hx => h x (by simp [hx]))]
      simp [tablesOf, hp, List.append_assoc]

/-- C5: when the raw-output root holds an integer-named scenario directory
whose index is at least the registry's scenario count, the loader fails with
the out-of-range error, and the tables accumulated from the valid scenarios
before the failing one are exactly their tables, uncorrupted (running the
loop on just that prefix succeeds with precisely those tables). -/
theorem read_parquet_out_of_range {α : Type} (trackr : List TrackrScenario)
    (good rest : List (ScenarioDir α)) (bad : ScenarioDir α)
    (hg : ∀ d ∈ good, (processScenario trackr d).isOk = true)
    (hname : isDigitsName bad.name = true)
    (hidx : trackr.length ≤ natOfName bad.name) :
    read_parquet_files trackr (good ++ bad :: rest) = .error .outOfRange ∧
    loadLoop trackr good [] = .ok ((good.map (tablesOf trackr)).flatten) := by
  have hbad : processScenario trackr bad = .error .outOfRange := by
    simp [processScenario, hname, List.getElem?_eq_none hidx]
  constructor
  · simp only [read_parquet_files]
    rw [loadLoop_append trackr good (bad :: rest) [] hg]
    simp [loadLoop, hbad]
  · simpa using loadLoop_ok trackr good [] hg

/-- Witness for C5: one valid scenario, then a directory named `1` against a
one-scenario registry. -/
theorem read_parquet_out_of_range_witness :
    (processScenario sampleTrackr sampleGoodDir).isOk = true ∧
    isDigitsName sampleBadDir.name = true ∧
    sampleTrackr.length ≤ natOfName sampleBadDir.name ∧
    read_parquet_files sampleTrackr [sampleGoodDir, sampleBadDir] = .error .outOfRange ∧
    loadLoop sampleTrackr [sampleGoodDir] []
      = .ok (([sampleGoodDir].map (tablesOf sampleTrackr)).flatten) :=
  ⟨by decide, by decide, by decide,
   (read_parquet_out_of_range sampleTrackr [sampleGoodDir] [] sampleBadDir
     (by decide) (by decide) (by decide)).1,
   (read_parquet_out_of_range sampleTrackr [sampleGoodDir] [] sampleBadDir
     (by decide) (by decide) (by decide)).2⟩

/-- C6: when every scenario directory processes successfully but zero parquet
tables are found — in particular when no `seed=` subdirectory matches — the
loader raises the empty-result error instead of returning an empty table. -/
theorem read_parquet_empty_result {α : Type} (trackr : List TrackrScenario)
    (dirs : List (ScenarioDir α))
    (hok : ∀ d ∈ dirs, (processScenario trackr d).isOk = true)
    (hempty : (dirs.map (tablesOf trackr)).flatten = []) :
    read_parquet_files trackr dirs = .error .emptyResult := by
  simp only [read_parquet_files]
  rw [loadLoop_ok trackr dirs [] hok]
  simp [hempty]

/-- Witness for C6: a scenario directory with no `seed=` subdirectory. -/
theorem read_parquet_empty_result_witness :
    (processScenario sampleTrackr sampleNoSeedDir).isOk = true ∧
    (([sampleNoSeedDir].map (tablesOf sampleTrackr)).flatten
      = ([] : List (List (TaggedRow ℕ)))) ∧
    read_parquet_files sampleTrackr [sampleNoSeedDir] = .error .emptyResult :=
  ⟨by decide, by decide,
   read_parquet_empty_result sampleTrackr [sampleNoSeedDir] (by decide) (by decide)⟩

/-- A `filterMap` whose function succeeds on every element preserves length. -/
theorem filterMap_total_length {α β : Type} (f : α → Option β) (l : List α)
    (h : ∀ a ∈ l, (f a).isSome = true) :
    (l.filterMap f).length = l.length := by
  induction l with
  | nil => rfl
  | cons a t ih =>
    have ha := h a (by simp)
    cases hf : f a with
    | none => rw [hf] at ha; simp at ha
    | some b =>
      simp only [List.filterMap_cons, hf, List.length_cons]
      rw [ih (fun x hx => h x (by simp [hx]))]

/-- Counting under a filter after a total `filterMap` equals counting the
preimages directly. -/
theorem filterMap_total_filter_length {α β : Type} (f : α → Option β)
    (p : β → Bool) (l : List α) (h : ∀ a ∈ l, (f a).isSome = true) :
    ((l.filterMap f).filter p).length
      = (l.filter (fun a => ((f a).map p).getD false)).length := by
  induction l with
  | nil => rfl
  | cons a t ih =>
    have ha := h a (by simp)
    have ht := ih (fun x hx => h x (by simp [hx]))
    cases hf : f a with
    | none => rw [hf] at ha; simp at ha
    | some b =>
      simp only [List.filterMap_cons, hf, List.filter_cons, Option.map_some,
        Option.getD_some]
      by_cases hpb : p b = true
      · simp [hpb, ht]
      · simp [hpb, ht]

/-- Every distinct `task_id` of a row list has a last row carrying it. -/
theorem lastRow_isSome (rows : List TaskRow) (id : ℕ)
    (h : id ∈ rows.map (fun r => r.task_id)) :
    ((rows.filter (fun r => r.task_id = id)).getLast?).isSome = true := by
  rw [List.getLast?_isSome]
  intro hnil
  obtain ⟨r, hr, hrid⟩ := List.mem_map.mp h
  have hmem : r ∈ rows.filter (fun r2 => r2.task_id = id) :=
    List.mem_filter.mpr ⟨hr, by simp [hrid]⟩
  rw [hnil] at hmem
  simp at hmem

/-- The final-state table has one row per distinct `task_id`. -/
theorem task_final_states_length (rows : List TaskRow) :
    (task_final_states rows).length
      = ((rows.map (fun r => r.task_id)).dedup).length := by
  unfold task_final_states
  exact filterMap_total_length _ _
    (fun id hid => lastRow_isSome rows id (List.mem_dedup.mp hid))

/-- The source's terminal-state count over the grouped final-state table
equals the spec's count of distinct tasks whose last observed state is `s`. -/
theorem stateCount_eq_spec (rows : List TaskRow) (s : String) :
    stateCount rows s = specFinalStateCount rows s := by
  unfold stateCount specFinalStateCount task_final_states
  rw [filterMap_total_filter_length _ _ _
    (fun id hid => lastRow_isSome rows id (List.mem_dedup.mp hid))]
  congr 1
  apply List.filter_congr
  intro id _
  unfold lastStateOf
  cases hl : (rows.filter (fun r => r.task_id = id)).getLast? with
  | none => simp [hl]
  | some r => simp [hl]

/-- A ratio of a count over a positive total is a fraction in `[0, 1]`. -/
theorem rate_bounds (c n : ℕ) (hc : c ≤ n) (hn : 0 < n) :
    0 ≤ (c : ℚ) / n ∧ (c : ℚ) / n ≤ 1 := by
  constructor
  · positivity
  · rw [div_le_one (by exact_mod_cast hn)]
    exact_mod_cast hc

/-- C3: for every scenario label carried by at least one task row, the
completion statistics determine each task's final state as the last observed
state per distinct `task_id`, and the completion, termination and error rates
each equal the count of tasks whose final state is `COMPLETED`, `TERMINATED`,
`ERROR` respectively, divided by the number of distinct `task_id`s — a
fraction in `[0, 1]`. -/
theorem task_completion_rates (task_df : List TaskRow) (label : String)
    (st : CompletionStats)
    (hmem : (label, st) ∈ analyze_task_completion task_df) :
    st.total_tasks
      = (((taskRowsFor task_df label).map (fun r => r.task_id)).dedup).length ∧
    st.completion_rate
      = (specFinalStateCount (taskRowsFor task_df label) "COMPLETED" : ℚ)
          / st.total_tasks ∧
    st.termination_rate
      = (specFinalStateCount (taskRowsFor task_df label) "TERMINATED" : ℚ)
          / st.total_tasks ∧
    st.error_rate
      = (specFinalStateCount (taskRowsFor task_df label) "ERROR" : ℚ)
          / st.total_tasks ∧
    0 ≤ st.completion_rate ∧ st.completion_rate ≤ 1 ∧
    0 ≤ st.termination_rate ∧ st.termination_rate ≤ 1 ∧
    0 ≤ st.error_rate ∧ st.error_rate ≤ 1 := by
  obtain ⟨l, hl, heq⟩ := List.mem_map.mp hmem
  injection heq with heq1 heq2
  subst heq1
  subst heq2
  have hrow : taskRowsFor task_df l ≠ [] := by
    obtain ⟨r, hr, hrl⟩ := List.mem_map.mp (List.mem_dedup.mp hl)
    intro hnil
    have hmem2 : r ∈ taskRowsFor task_df l :=
      List.mem_filter.mpr ⟨hr, by simp [hrl]⟩
    rw [hnil] at hmem2
    simp at hmem2
  have htotal : (task_final_states (taskRowsFor task_df l)).length
      = (((taskRowsFor task_df l).map (fun r => r.task_id)).dedup).length :=
    task_final_states_length _
  have hpos : 0 < (task_final_states (taskRowsFor task_df l)).length := by
    rw [htotal]
    refine List.length_pos.mpr ?_
    rw [ne_eq, List.dedup_eq_nil, List.map_eq_nil_iff]
    exact hrow
  have hcount : ∀ s, stateCount (taskRowsFor task_df l) s
      ≤ (task_final_states (taskRowsFor task_df l)).length :=
    fun s => List.length_filter_le _ _
  have hrate : ∀ s, 0 ≤ (stateCount (taskRowsFor task_df l) s : ℚ)
        / ((task_final_states (taskRowsFor task_df l)).length : ℚ) ∧
      (stateCount (taskRowsFor task_df l) s : ℚ)
        / ((task_final_states (taskRowsFor task_df l)).length : ℚ) ≤ 1 :=
    fun s => rate_bounds _ _ (hcount s) hpos
  refine ⟨?_, ?_, ?_, ?_, ?_, ?_, ?_, ?_, ?_, ?_⟩
  · exact htotal
  · simp only [analyzeScenario, hpos, if_true, gt_iff_lt, stateCount_eq_spec]
  · simp only [analyzeScenario, hpos, if_true, gt_iff_lt, stateCount_eq_spec]
  · simp only [analyzeScenario, hpos, if_true, gt_iff_lt, stateCount_eq_spec]
  · simpa only [analyzeScenario, hpos, if_true, gt_iff_lt] using (hrate "COMPLETED").1
  · simpa only [analyzeScenario, hpos, if_true, gt_iff_lt] using (hrate "COMPLETED").2
  · simpa only [analyzeScenario, hpos, if_true, gt_iff_lt] using (hrate "TERMINATED").1
  · simpa only [analyzeScenario, hpos, if_true, gt_iff_lt] using (hrate "TERMINATED").2
  · simpa only [analyzeScenario, hpos, if_true, gt_iff_lt] using (hrate "ERROR").1
  · simpa only [analyzeScenario, hpos, if_true, gt_iff_lt] using (hrate "ERROR").2

/-- Witness for C3: the sample scenario has two distinct tasks, one ending
`COMPLETED` and one `ERROR`. -/
theorem task_completion_rates_witness :
    (("small_cost_diurnal_CostEfficient",
        analyzeScenario (taskRowsFor sampleTasks "small_cost_diurnal_CostEfficient"))
      ∈ analyze_task_completion sampleTasks) ∧
    (analyzeScenario (taskRowsFor sampleTasks "small_cost_diurnal_CostEfficient")).total_tasks
      = 2 ∧
    specFinalStateCount (taskRowsFor sampleTasks "small_cost_diurnal_CostEfficient")
      "COMPLETED" = 1 ∧
    (analyzeScenario (taskRowsFor sampleTasks "small_cost_diurnal_CostEfficient")).completion_rate
      = (specFinalStateCount (taskRowsFor sampleTasks "small_cost_diurnal_CostEfficient")
          "COMPLETED" : ℚ)
        / (analyzeScenario (taskRowsFor sampleTasks "small_cost_diurnal_CostEfficient")).total_tasks ∧
    0 ≤ (analyzeScenario (taskRowsFor sampleTasks "small_cost_diurnal_CostEfficient")).completion_rate ∧
    (analyzeScenario (taskRowsFor sampleTasks "small_cost_diurnal_CostEfficient")).completion_rate
      ≤ 1 :=
  have hmem : ("small_cost_diurnal_CostEfficient",
      analyzeScenario (taskRowsFor sampleTasks "small_cost_diurnal_CostEfficient"))
      ∈ analyze_task_completion sampleTasks := by
    have e : analyze_task_completion sampleTasks
        = [("small_cost_diurnal_CostEfficient",
            analyzeScenario (taskRowsFor sampleTasks "small_cost_diurnal_CostEfficient"))] := rfl
    rw [e]
    exact List.mem_singleton.mpr rfl
  ⟨hmem, by decide, by decide,
   (task_completion_rates sampleTasks "small_cost_diurnal_CostEfficient" _ hmem).2.1,
   (task_completion_rates sampleTasks "small_cost_diurnal_CostEfficient" _ hmem).2.2.2.2.1,
   (task_completion_rates sampleTasks "small_cost_diurnal_CostEfficient" _ hmem).2.2.2.2.2.1⟩

end CostAnalysis
